import Mathlib

/-!
Verification development for the order-execution and stop-trigger engine
of the Trade_Bot repository (`exchange_manager.py`).

The Python source is shallowly embedded: prices and quantities (`Decimal`
and `float` in the source) are modelled as exact rationals `ℚ`; the mutable
`ExchangeManager` object becomes an explicit state record `EMState` threaded
through pure functions; the order registry (a Python `dict` preserving
insertion order, with unique keys) becomes a `List ActiveOrder`; exceptions
become `Except` values; the outbound order-update callback becomes an
`Except String Unit` parameter describing the outcome of its single
invocation (the source only ever observes "raised or not").

Python truthiness (`if not order.stop_price`, which is taken both for
`None` and for a zero `Decimal`) is translated explicitly wherever the
source relies on it.
-/

namespace ExchangeManager

/-- Order side, mirroring the `side` literal type in the source. -/
inductive Side where
  | BUY
  | SELL
deriving DecidableEq, Repr

/-- The six recognized order types (`valid_types` in `_validate_order_req`). -/
inductive OrderType where
  | MARKET
  | LIMIT
  | STOP_MARKET
  | STOP
  | TAKE_PROFIT
  | TAKE_PROFIT_MARKET
deriving DecidableEq, Repr

/-- Membership of a type in the STOP family, mirroring
`otype in ("STOP", "STOP_MARKET", "TAKE_PROFIT", "TAKE_PROFIT_MARKET")`. -/
def is_stop_family (t : OrderType) : Bool :=
  match t with
  | OrderType.STOP => true
  | OrderType.STOP_MARKET => true
  | OrderType.TAKE_PROFIT => true
  | OrderType.TAKE_PROFIT_MARKET => true
  | _ => false

/-- The `ActiveOrder` dataclass from the source. Timestamps and the
`exchange_order_id` string are irrelevant to every claim and are omitted;
all fields read or written by the embedded operations are kept. -/
structure ActiveOrder where
  client_order_id : String
  symbol : String
  side : Side
  type : OrderType
  qty : ℚ
  price : Option ℚ := none
  stop_price : Option ℚ := none
  filled_qty : ℚ := 0
  status : String := "NEW"
  correlation_id : Option String := none
  reduce_only : Bool := false
  trigger_price : Option ℚ := none
deriving DecidableEq, Repr

/-- The `OrderReq` request dictionary, as used by `place_order` /
`_place_order_demo`: the fields those functions read. `side`, `type` and
`qty` are typed (the source's `is None` / membership checks on them are
enforced by the types here). -/
structure OrderReq where
  client_order_id : String
  symbol : String
  side : Side
  type : OrderType
  qty : ℚ
  price : Option ℚ := none
  stop_price : Option ℚ := none
  correlation_id : Option String := none
  reduce_only : Bool := false
deriving DecidableEq, Repr

/-- The `OrderUpd` value object handed to the outbound callback: the fields
the embedded fill paths actually populate (timestamps and exchange ids
elided). -/
structure OrderUpd where
  client_order_id : String
  symbol : String
  side : Side
  status : String
  qty : ℚ := 0
  price : Option ℚ := none
  filled_qty : ℚ := 0
  avg_price : Option ℚ := none
  commission : Option ℚ := none
  reduce_only : Bool := false
  trade_id : Option String := none
deriving DecidableEq, Repr

/-- Acknowledgement dictionaries returned by `place_order`,
`_place_order_demo` and `cancel_order`. The source uses the key `error`
in `place_order` rejections and `error_message` in the demo/cancel paths;
both are kept. -/
structure Ack where
  status : String
  client_order_id : String := ""
  avg_price : Option ℚ := none
  filled_qty : Option ℚ := none
  error : Option String := none
  error_message : Option String := none
deriving DecidableEq, Repr

/-- The statistics counters of `self._stats` that the embedded operations
touch (latency and timestamp fields elided: no operation modelled here
reads them). -/
structure EMStats where
  orders_sent : Int := 0
  orders_filled : Int := 0
  orders_rejected : Int := 0
  orders_canceled : Int := 0
  active_stops : Int := 0
deriving DecidableEq, Repr

/-- The mutable engine state the claims are about: the order registry
(`self._active_orders`, an insertion-ordered dict with unique keys,
modelled as a list) and the statistics record. -/
structure EMState where
  active_orders : List ActiveOrder := []
  stats : EMStats := {}
deriving DecidableEq, Repr

/-- State produced by `ExchangeManager.__init__` (registry empty, all
counters zero) — also the state produced by `reset_for_backtest`. -/
def initial_state : EMState := {}

/-- Python truthiness of an optional numeric value: `None` and `0` are
falsy (`if not order.stop_price`, `if order_req.get("price")`, ...). -/
def truthy_num (v : Option ℚ) : Bool :=
  match v with
  | none => false
  | some q => !(q = 0)

/-- Python truthiness of an optional string: `None` and `""` are falsy
(`if req.get("correlation_id")`). -/
def truthy_str (v : Option String) : Bool :=
  match v with
  | none => false
  | some s => !(s = "")

/-- Fixed relative tolerance used by both trigger predicates
(`tolerance = 0.0001` in the source). -/
def tolerance : ℚ := 1 / 10000

/-- Directional slippage fraction for MARKET fills in the demo fill path
(`self._demo_slippage_pct = 0.001`). -/
def demo_slippage_pct : ℚ := 1 / 1000

/-- Directional slippage fraction for STOP fills in DEMO (non-backtest)
mode (`self._demo_stop_slippage_pct = 0.0001`). -/
def demo_stop_slippage_pct : ℚ := 1 / 10000

/-- Maker commission rate (`maker_fee_rate = 0.0002`). -/
def maker_fee_rate : ℚ := 2 / 10000

/-- Taker commission rate (`taker_fee_rate = 0.0004`), also the rate
hard-coded in `place_order` and `_trigger_stop_order`. -/
def taker_fee_rate : ℚ := 4 / 10000

/-- Embedding of `_check_stop_trigger_with_price(order, current_price)`:
the trigger predicate evaluated against an explicitly supplied price.
The leading `if not order.stop_price: return False` guard covers both a
missing and a zero stop price (Python truthiness). -/
def check_stop_trigger_with_price (order : ActiveOrder) (current_price : ℚ) : Bool :=
  match order.stop_price with
  | none => false
  | some sp =>
    if sp = 0 then false
    else
      if order.type = OrderType.STOP ∨ order.type = OrderType.STOP_MARKET then
        if order.side = Side.SELL ∧ order.reduce_only = true then
          decide (current_price ≤ sp * (1 + tolerance))
        else if order.side = Side.BUY ∧ order.reduce_only = true then
          decide (sp * (1 - tolerance) ≤ current_price)
        else if order.side = Side.BUY then
          decide (sp * (1 - tolerance) ≤ current_price)
        else
          decide (current_price ≤ sp * (1 + tolerance))
      else if order.type = OrderType.TAKE_PROFIT ∨ order.type = OrderType.TAKE_PROFIT_MARKET then
        if order.side = Side.SELL ∧ order.reduce_only = true then
          decide (sp * (1 - tolerance) ≤ current_price)
        else if order.side = Side.BUY ∧ order.reduce_only = true then
          decide (current_price ≤ sp * (1 + tolerance))
        else if order.side = Side.BUY then
          decide (current_price ≤ sp * (1 + tolerance))
        else
          decide (sp * (1 - tolerance) ≤ current_price)
      else
        false

/-- Lookup in the registry by client order id
(`self._active_orders.get(client_order_id)`; dict keys are unique, so the
first list entry with the id is the dict entry). -/
def find_order (reg : List ActiveOrder) (id : String) : Option ActiveOrder :=
  match reg with
  | [] => none
  | o :: rest => if o.client_order_id = id then some o else find_order rest id

/-- Removal of a key from the registry
(`self._active_orders.pop(client_order_id, None)`): drops the (unique)
entry with the given id, keeping every other entry in order. -/
def remove_first (reg : List ActiveOrder) (id : String) : List ActiveOrder :=
  match reg with
  | [] => []
  | o :: rest =>
    if o.client_order_id = id then rest else o :: remove_first rest id

/-- Dict assignment `self._active_orders[order.client_order_id] = order`:
replaces the entry in place when the key already exists (Python dicts keep
the original insertion position), otherwise appends. -/
def registry_insert (reg : List ActiveOrder) (o : ActiveOrder) : List ActiveOrder :=
  match reg with
  | [] => [o]
  | x :: rest =>
    if x.client_order_id = o.client_order_id then o :: rest
    else x :: registry_insert rest o

/-- Registry well-formedness: the dict invariant that client order ids are
pairwise distinct. -/
def registry_wf (reg : List ActiveOrder) : Prop :=
  reg.Pairwise (fun a b => a.client_order_id ≠ b.client_order_id)

/-- Embedding of `_remove_active_order(client_order_id)`: pops the order if
present (a no-op otherwise) and, for STOP-family orders, decrements the
`active_stops` counter clamped at `max(0, ·)`. The per-order logging
counter cleanup has no modelled effect. -/
def remove_active_order (st : EMState) (id : String) : EMState :=
  match find_order st.active_orders id with
  | none => st
  | some o =>
    { st with
      active_orders := remove_first st.active_orders id,
      stats :=
        if is_stop_family o.type then
          { st.stats with active_stops := max 0 (st.stats.active_stops - 1) }
        else st.stats }

/-- The stats mutation `self._stats["orders_sent"] += 1`. -/
def bump_sent (st : EMState) : EMState :=
  { st with stats := { st.stats with orders_sent := st.stats.orders_sent + 1 } }

/-- The stats mutation `self._stats["orders_filled"] += 1`. -/
def bump_filled (st : EMState) : EMState :=
  { st with stats := { st.stats with orders_filled := st.stats.orders_filled + 1 } }

/-- The stats mutation `self._stats["orders_rejected"] += 1`. -/
def bump_rejected (st : EMState) : EMState :=
  { st with stats := { st.stats with orders_rejected := st.stats.orders_rejected + 1 } }

/-- The stats mutation `self._stats["orders_canceled"] += 1`. -/
def bump_canceled (st : EMState) : EMState :=
  { st with stats := { st.stats with orders_canceled := st.stats.orders_canceled + 1 } }

/-- The `InvalidOrderError` message raised by `update_stop_order` when no
active STOP order exists for the symbol. -/
def no_active_stop_msg (symbol : String) : String :=
  "No active STOP order found for " ++ symbol ++
    ". Ensure initial stop was created on position open."

/-- The scan inside `update_stop_order`: walk `self._active_orders.values()`
in insertion order; on the first order matching the symbol whose type is in
the STOP family, set `order.stop_price = new_stop_price` and
`order.correlation_id = correlation_id` in place and stop. `none` means no
match (the source then raises `InvalidOrderError`). -/
def update_first (reg : List ActiveOrder) (symbol : String) (new_stop_price : ℚ)
    (correlation_id : String) : Option (List ActiveOrder) :=
  match reg with
  | [] => none
  | o :: rest =>
    if o.symbol = symbol ∧ is_stop_family o.type = true then
      some ({ o with stop_price := some new_stop_price,
                     correlation_id := some correlation_id } :: rest)
    else
      (update_first rest symbol new_stop_price correlation_id).map (o :: ·)

/-- Embedding of `update_stop_order(symbol, new_stop_price, correlation_id)`:
mutates the first matching STOP-family order for the symbol in place, or
raises (`Except.error`) the no-active-stop `InvalidOrderError`. -/
def update_stop_order (st : EMState) (symbol : String) (new_stop_price : ℚ)
    (correlation_id : String) : Except String EMState :=
  match update_first st.active_orders symbol new_stop_price correlation_id with
  | some reg => Except.ok { st with active_orders := reg }
  | none => Except.error (no_active_stop_msg symbol)

/-- Result of `_trigger_stop_order`: the state after removal and stats
update, the FILLED update delivered to the callback, and the error string
logged if the callback raised (`cb_log = none` when it succeeded). -/
structure TriggerResult where
  state : EMState
  fill : OrderUpd
  cb_log : Option String
deriving DecidableEq, Repr

/-- Embedding of `_trigger_stop_order(order, execution_price)`: builds the
FILLED update (commission at the hard-coded 0.0004 taker rate,
`reduce_only=True`), invokes the callback directly — any exception is
caught and only logged — then removes the order from the registry and
increments `orders_filled`. -/
def trigger_stop_order (st : EMState) (order : ActiveOrder) (execution_price : ℚ)
    (cb : Except String Unit) : TriggerResult :=
  let fill_price := execution_price
  let filled_qty := order.qty
  let commission := fill_price * filled_qty * taker_fee_rate
  let fill : OrderUpd :=
    { client_order_id := order.client_order_id, symbol := order.symbol,
      side := order.side, status := "FILLED", qty := filled_qty,
      price := order.price, filled_qty := filled_qty,
      avg_price := some fill_price, commission := some commission,
      reduce_only := true, trade_id := some ("stop_" ++ order.symbol) }
  let cb_log : Option String :=
    match cb with
    | Except.ok _ => none
    | Except.error e => some ("Callback error: " ++ e)
  let st1 := remove_active_order st order.client_order_id
  { state := bump_filled st1, fill := fill, cb_log := cb_log }

/-- Primitive actions performed by `check_stops_on_price_update`, in the
order the source performs them, recorded as a trace. -/
inductive StopAction where
  | removed : String → StopAction
  | filled : String → ℚ → StopAction
deriving DecidableEq, Repr

/-- The loop body of `check_stops_on_price_update`: scan the snapshot of
registry entries in order; skip orders of other symbols and orders outside
{STOP, STOP_MARKET}; on the first order whose trigger predicate holds,
either drop it if its stop price is falsy (`if not stop_price` — dead in
practice, since the predicate already requires a truthy stop price) or
remove it first and then execute `_trigger_stop_order` at the recorded
stop price, and stop scanning (`break`). The trailing `removed` action is
`_trigger_stop_order`'s own internal (idempotent) removal call. -/
def check_stops_go (st : EMState) (symbol : String) (current_price : ℚ)
    (cb : Except String Unit) : List ActiveOrder → EMState × List StopAction
  | [] => (st, [])
  | o :: rest =>
    if o.symbol = symbol ∧ (o.type = OrderType.STOP ∨ o.type = OrderType.STOP_MARKET) ∧
        check_stop_trigger_with_price o current_price = true then
      match o.stop_price with
      | none =>
        (remove_active_order st o.client_order_id, [StopAction.removed o.client_order_id])
      | some sp =>
        if sp = 0 then
          (remove_active_order st o.client_order_id, [StopAction.removed o.client_order_id])
        else
          let st1 := remove_active_order st o.client_order_id
          let tr := trigger_stop_order st1 o sp cb
          (tr.state,
            [StopAction.removed o.client_order_id,
             StopAction.filled o.client_order_id sp,
             StopAction.removed o.client_order_id])
    else check_stops_go st symbol current_price cb rest

/-- Embedding of `check_stops_on_price_update(symbol, current_price)`: the
synchronous stop check driven by the candle-close caller, returning the new
state and the trace of actions taken. -/
def check_stops_on_price_update (st : EMState) (symbol : String) (current_price : ℚ)
    (cb : Except String Unit) : EMState × List StopAction :=
  check_stops_go st symbol current_price cb st.active_orders

/-- Claim-side helper: the first registry entry for the symbol that is a
STOP/STOP_MARKET order and whose trigger predicate holds at the price. -/
def first_eligible_stop (reg : List ActiveOrder) (symbol : String) (price : ℚ) :
    Option ActiveOrder :=
  match reg with
  | [] => none
  | o :: rest =>
    if o.symbol = symbol ∧ (o.type = OrderType.STOP ∨ o.type = OrderType.STOP_MARKET) ∧
        check_stop_trigger_with_price o price = true then
      some o
    else first_eligible_stop rest symbol price

/-- Number of fill actions in a trace. -/
def fill_count (acts : List StopAction) : Nat :=
  acts.countP (fun a => match a with | StopAction.filled _ _ => true | _ => false)

/-- Substring containment on character lists (Python's `marker in corr_id`). -/
def list_contains_sub (pat : List Char) : List Char → Bool
  | [] => pat.isEmpty
  | c :: rest => pat.isPrefixOf (c :: rest) || list_contains_sub pat rest

/-- Substring containment on strings. -/
def str_contains_sub (s pat : String) : Bool :=
  list_contains_sub pat.toList s.toList

/-- The trailing-update marker test
`any(marker in corr_id for marker in ["trail", "update", "trailing"])`. -/
def has_trailing_marker (corr : String) : Bool :=
  str_contains_sub corr "trail" || str_contains_sub corr "update" ||
    str_contains_sub corr "trailing"

/-- Truthiness of the optional-price positivity checks in the validator
(`price <= 0` when the field is present). -/
def nonpos_opt (v : Option ℚ) : Bool :=
  match v with
  | none => false
  | some p => decide (p ≤ 0)

/-- Embedding of `_validate_order_req(req)`: the checks in source order.
Presence and membership checks on `side`, `type` and `qty` are enforced by
the types of `OrderReq`; the id and symbol presence checks are Python
truthiness on strings (empty is missing). The source interpolates the
concrete order type into the stop-price message; a fixed message stands in
for it (no claim reads these strings). -/
def validate_order_req (req : OrderReq) : Except String Unit :=
  if req.client_order_id = "" then
    Except.error "Missing required field: client_order_id"
  else if req.symbol = "" then
    Except.error "Missing required field: symbol"
  else if req.qty ≤ 0 then
    Except.error "Quantity must be positive"
  else if req.type = OrderType.LIMIT ∧ req.price = none then
    Except.error "LIMIT orders require price"
  else if is_stop_family req.type = true ∧ req.stop_price = none then
    Except.error "STOP orders require stop_price"
  else if nonpos_opt req.price = true then
    Except.error "Price must be positive"
  else if nonpos_opt req.stop_price = true then
    Except.error "stop_price must be positive"
  else
    Except.ok ()

/-- The `ActiveOrder` built by `_place_order_demo` when it registers a new
order: `stop_price` (and the copied `trigger_price`) are set only for
STOP-family types. -/
def mk_demo_order (req : OrderReq) : ActiveOrder :=
  let spv := if is_stop_family req.type = true then req.stop_price else none
  { client_order_id := req.client_order_id, symbol := req.symbol,
    side := req.side, type := req.type, qty := req.qty, price := req.price,
    stop_price := spv, trigger_price := spv,
    correlation_id := req.correlation_id, reduce_only := req.reduce_only }

/-- The registration tail of `_place_order_demo` in the synchronous
stop-check configuration (BACKTEST/DEMO execution modes, where
`_use_sync_stop_check` is true so the background-monitor branch is
skipped): insert the order into the registry and acknowledge NEW. For
LIMIT the source then mutates the inserted order's status to WORKING via
`_demo_send_working_update` (the emitted WORKING update itself has no
state effect); MARKET schedules `_demo_fill_order` on a latency timer,
modelled as the separate `demo_fill_order` step. -/
def place_order_demo_insert (st : EMState) (req : OrderReq) : EMState × Ack :=
  let order0 := mk_demo_order req
  let order := if req.type = OrderType.LIMIT then { order0 with status := "WORKING" }
               else order0
  ({ st with active_orders := registry_insert st.active_orders order },
   { status := "NEW", client_order_id := req.client_order_id })

/-- Embedding of `_place_order_demo(req)`: a STOP-family request with a
truthy correlation id containing a trailing-update marker and a present
stop price is routed to `update_stop_order` (REPLACED on success, REJECTED
with the raised `InvalidOrderError` message on failure, no insertion in
either case); every other request is inserted as a new order. A trailing
request whose stop price is `None` falls through to insertion, exactly as
the source's `if sp is not None:` does. -/
def place_order_demo (st : EMState) (req : OrderReq) : EMState × Ack :=
  if is_stop_family req.type = true ∧ truthy_str req.correlation_id = true ∧
      has_trailing_marker ((req.correlation_id).getD "") = true then
    match req.stop_price with
    | some sp =>
      match update_stop_order st req.symbol sp ((req.correlation_id).getD "") with
      | Except.ok st1 =>
        (st1, { status := "REPLACED", client_order_id := req.client_order_id })
      | Except.error e =>
        (st, { status := "REJECTED", client_order_id := req.client_order_id,
               error_message := some e })
    | none => place_order_demo_insert st req
  else place_order_demo_insert st req

/-- Fill-price resolution in `place_order`'s instant path: the request's
own price if truthy, otherwise a truthy price-feed quote. The source's
final `if not fill_price:` rejection check collapses into `none` here,
since a zero candidate is already mapped to `none` at each step. -/
def resolve_instant_fill_price (req : OrderReq) (feed : Option (String → Option ℚ)) :
    Option ℚ :=
  if truthy_num req.price = true then req.price
  else
    match feed with
    | some f =>
      match f req.symbol with
      | some p => if p = 0 then none else some p
      | none => none
    | none => none

/-- Result of `place_order`: the state, the acknowledgement dictionary, and
the updates delivered to the primary callback (the FILLED update is
delivered before the callback can raise, so it appears even when the
callback fails). -/
structure PlaceResult where
  state : EMState
  ack : Ack
  emitted : List OrderUpd := []
deriving DecidableEq, Repr

/-- The normalization at the top of `place_order`: a STOP-family request
with no stop price but a present limit price has the limit price copied
into the stop price and cleared. -/
def normalize_stop_req (req0 : OrderReq) : OrderReq :=
  if is_stop_family req0.type = true ∧ req0.stop_price = none ∧ req0.price ≠ none
  then { req0 with stop_price := req0.price, price := none } else req0

/-- The body of `place_order` after the stop-price normalization step
(factored out so the normalization substitution happens once). -/
def place_order_core (st : EMState) (req : OrderReq) (feed : Option (String → Option ℚ))
    (cb : Except String Unit) : PlaceResult :=
  match validate_order_req req with
  | Except.error e =>
    { state := bump_rejected st,
      ack := { status := "REJECTED", client_order_id := req.client_order_id,
               error := some e } }
  | Except.ok _ =>
    if is_stop_family req.type = true then
      let r := place_order_demo st req
      { state := bump_sent r.1, ack := r.2 }
    else
      let st1 := bump_sent st
      match resolve_instant_fill_price req feed with
      | none =>
        { state := bump_rejected st1,
          ack := { status := "REJECTED", client_order_id := req.client_order_id,
                   error := some "No price available" } }
      | some fp =>
        let commission := req.qty * fp * taker_fee_rate
        let upd : OrderUpd :=
          { client_order_id := req.client_order_id, symbol := req.symbol,
            side := req.side, status := "FILLED", qty := req.qty, price := req.price,
            filled_qty := req.qty, avg_price := some fp, commission := some commission,
            reduce_only := req.reduce_only, trade_id := req.correlation_id }
        match cb with
        | Except.ok _ =>
          { state := bump_filled st1,
            ack := { status := "FILLED", client_order_id := req.client_order_id,
                     avg_price := some fp, filled_qty := some req.qty },
            emitted := [upd] }
        | Except.error e =>
          { state := bump_rejected st1,
            ack := { status := "REJECTED", client_order_id := req.client_order_id,
                     error := some ("Callback failed: " ++ e) },
            emitted := [upd] }

/-- Embedding of `place_order(order_req)`: normalize a STOP-family request
that carries only a limit price (copy it into the stop price), validate
(a validation failure is caught by the outer handler: `orders_rejected`
is incremented and a REJECTED ack returned), route STOP-family requests
through `_place_order_demo`, and fill MARKET/LIMIT instantly at the
resolved price with the hard-coded 0.0004 commission rate — rejecting with
"No price available" when no price resolves, and turning a callback
exception into a REJECTED "Callback failed" ack. -/
def place_order (st : EMState) (req0 : OrderReq) (feed : Option (String → Option ℚ))
    (cb : Except String Unit) : PlaceResult :=
  place_order_core st (normalize_stop_req req0) feed cb

/-- Embedding of `_calculate_commission(price, qty, is_maker)`:
`price × qty × rate`, maker rate 0.0002, taker rate 0.0004. -/
def calculate_commission (price qty : ℚ) (maker : Bool) : ℚ :=
  price * qty * (if maker then maker_fee_rate else taker_fee_rate)

/-- Current-price resolution at the top of `_demo_fill_order`: a truthy
feed quote, else the order's own truthy price, else nothing (the order is
then rejected with "No price available"). -/
def resolve_current_price (order : ActiveOrder) (feed : Option (String → Option ℚ)) :
    Option ℚ :=
  let from_feed : Option ℚ :=
    match feed with
    | some f => f order.symbol
    | none => none
  match from_feed with
  | some p =>
    if p = 0 then
      match order.price with
      | some q => if q = 0 then none else some q
      | none => none
    else some p
  | none =>
    match order.price with
    | some q => if q = 0 then none else some q
    | none => none

/-- Embedding of `_demo_reject_order(order, reason)`: emit a REJECTED
update, remove the order, increment `orders_rejected`. -/
def demo_reject_order (st : EMState) (order : ActiveOrder) : EMState × OrderUpd :=
  let upd : OrderUpd :=
    { client_order_id := order.client_order_id, symbol := order.symbol,
      side := order.side, status := "REJECTED", filled_qty := 0,
      trade_id := order.correlation_id }
  (bump_rejected (remove_active_order st order.client_order_id), upd)

/-- Embedding of `_demo_fill_order(client_order_id)`: a missing order is a
silent no-op; with no resolvable current price the order is rejected;
otherwise the fill price is, in source order: the trigger price when set
(with 0.01% directional stop slippage in DEMO i.e. non-backtest mode),
else the current price with 0.1% directional slippage for MARKET, else the
order's own price for LIMIT (the source also lists STOP_LIMIT and
TAKE_PROFIT_LIMIT, which lie outside the recognized type universe), else
the fallback (own price or current price). Commission uses the maker rate
exactly for LIMIT. The FILLED update is emitted, then the order is removed
and `orders_filled` incremented. -/
def demo_fill_order (st : EMState) (client_order_id : String)
    (feed : Option (String → Option ℚ)) (backtest : Bool) : EMState × Option OrderUpd :=
  match find_order st.active_orders client_order_id with
  | none => (st, none)
  | some order =>
    match resolve_current_price order feed with
    | none =>
      let r := demo_reject_order st order
      (r.1, some r.2)
    | some current_price =>
      let fill_price : ℚ :=
        match order.trigger_price with
        | some tp =>
          if backtest then tp
          else if order.side = Side.BUY then tp + tp * demo_stop_slippage_pct
          else tp - tp * demo_stop_slippage_pct
        | none =>
          if order.type = OrderType.MARKET then
            if order.side = Side.BUY then
              current_price + current_price * demo_slippage_pct
            else current_price - current_price * demo_slippage_pct
          else if order.type = OrderType.LIMIT then
            match order.price with
            | some p => p
            | none => current_price
          else
            match order.price with
            | some p => p
            | none => current_price
      let commission :=
        calculate_commission fill_price order.qty (decide (order.type = OrderType.LIMIT))
      let upd : OrderUpd :=
        { client_order_id := order.client_order_id, symbol := order.symbol,
          side := order.side, status := "FILLED", price := order.price,
          filled_qty := order.qty, avg_price := some fill_price,
          commission := some commission, reduce_only := order.reduce_only,
          trade_id := order.correlation_id }
      (bump_filled (remove_active_order st client_order_id), some upd)

/-- Embedding of `_cancel_order_demo(client_order_id)` (reached through
`cancel_order`'s membership check): REJECTED "not found" for an absent id;
otherwise emit CANCELED (the update has no state effect and is elided),
remove the order and increment `orders_canceled`. -/
def cancel_order_demo (st : EMState) (client_order_id : String) : EMState × Ack :=
  match find_order st.active_orders client_order_id with
  | none =>
    (st, { status := "REJECTED", client_order_id := client_order_id,
           error_message := some ("Order " ++ client_order_id ++ " not found") })
  | some _ =>
    (bump_canceled (remove_active_order st client_order_id),
     { status := "CANCELED", client_order_id := client_order_id })

/-- Embedding of `reset_for_backtest()`: clears the registry and resets
every counter, yielding the constructor state. -/
def reset_for_backtest (_st : EMState) : EMState := initial_state

/-- States reachable from construction through the embedded operations of
the engine (every state-modifying operation modelled in this file appears
as a step). -/
inductive ReachableEM : EMState → Prop where
  | init : ReachableEM initial_state
  | reset (s : EMState) : ReachableEM s → ReachableEM (reset_for_backtest s)
  | place (s : EMState) (req : OrderReq) (feed : Option (String → Option ℚ))
      (cb : Except String Unit) :
      ReachableEM s → ReachableEM (place_order s req feed cb).state
  | place_demo (s : EMState) (req : OrderReq) :
      ReachableEM s → ReachableEM (place_order_demo s req).1
  | cancel (s : EMState) (id : String) :
      ReachableEM s → ReachableEM (cancel_order_demo s id).1
  | fill (s : EMState) (id : String) (feed : Option (String → Option ℚ)) (bt : Bool) :
      ReachableEM s → ReachableEM (demo_fill_order s id feed bt).1
  | check (s : EMState) (sym : String) (p : ℚ) (cb : Except String Unit) :
      ReachableEM s → ReachableEM (check_stops_on_price_update s sym p cb).1
  | update (s s1 : EMState) (sym : String) (nsp : ℚ) (cid : String) :
      ReachableEM s → update_stop_order s sym nsp cid = Except.ok s1 → ReachableEM s1
  | trigger (s : EMState) (o : ActiveOrder) (p : ℚ) (cb : Except String Unit) :
      ReachableEM s → ReachableEM (trigger_stop_order s o p cb).state
  | remove (s : EMState) (id : String) :
      ReachableEM s → ReachableEM (remove_active_order s id)

/-- A concrete closing-long STOP order with trigger 100 (side=SELL,
reduce_only=true), used by the concrete instances of claim C1. -/
def closing_long_stop_100 : ActiveOrder :=
  { client_order_id := "cl_stop", symbol := "ETHUSDT", side := Side.SELL,
    type := OrderType.STOP_MARKET, qty := 1, stop_price := some 100,
    trigger_price := some 100, reduce_only := true }

/-- A concrete closing-short TAKE_PROFIT order with trigger 100 (side=BUY,
reduce_only=true), used by the concrete instances of claim C1. -/
def closing_short_tp_100 : ActiveOrder :=
  { client_order_id := "cs_tp", symbol := "ETHUSDT", side := Side.BUY,
    type := OrderType.TAKE_PROFIT, qty := 1, stop_price := some 100,
    trigger_price := some 100, reduce_only := true }

/-- Concrete registry fixture: a STOP order on another symbol, skipped by
a check for symbol "E". -/
def w2_other : ActiveOrder :=
  { client_order_id := "a", symbol := "B", side := Side.SELL,
    type := OrderType.STOP, qty := 1, stop_price := some 100,
    trigger_price := some 100, reduce_only := true }

/-- Concrete registry fixture: the closing-long STOP order on symbol "E"
that a check at price 95 triggers. -/
def w2_hit : ActiveOrder :=
  { client_order_id := "b", symbol := "E", side := Side.SELL,
    type := OrderType.STOP, qty := 2, stop_price := some 100,
    trigger_price := some 100, reduce_only := true }

/-- Concrete two-order registry state for the synchronous-check witness. -/
def w2_state : EMState := { active_orders := [w2_other, w2_hit] }

/-- Concrete trailing-update request for symbol "E" (correlation id
carries the `trail` marker, new stop price 105). -/
def w6_req : OrderReq :=
  { client_order_id := "t1", symbol := "E", side := Side.SELL,
    type := OrderType.STOP_MARKET, qty := 2, stop_price := some 105,
    correlation_id := some "trail_1", reduce_only := true }

/-- Concrete existing LIMIT order with id "X", for the duplicate-insert
counterexample. -/
def c3_x : ActiveOrder :=
  { client_order_id := "X", symbol := "E", side := Side.BUY,
    type := OrderType.LIMIT, qty := 1, price := some 100 }

/-- Registry already containing the order with id "X". -/
def c3_state : EMState := { active_orders := [c3_x] }

/-- A new MARKET request reusing the existing id "X". -/
def c3_req : OrderReq :=
  { client_order_id := "X", symbol := "E", side := Side.SELL,
    type := OrderType.MARKET, qty := 2 }

/-- Concrete MARKET BUY request of qty 1 (no explicit price), for the
slippage claims. -/
def c4_req : OrderReq :=
  { client_order_id := "m1", symbol := "E", side := Side.BUY,
    type := OrderType.MARKET, qty := 1 }

/-- A price feed reporting 2000 for every symbol. -/
def c4_feed : Option (String → Option ℚ) := some (fun _ => some 2000)

/-- Concrete LIMIT BUY request, price 100, qty 1, for the commission
claims. -/
def c5_req : OrderReq :=
  { client_order_id := "l1", symbol := "E", side := Side.BUY,
    type := OrderType.LIMIT, qty := 1, price := some 100 }

/-- Concrete registered MARKET order (no trigger price) on symbol "E",
for the demo-fill slippage witness. -/
def w4_market : ActiveOrder :=
  { client_order_id := "m2", symbol := "E", side := Side.BUY,
    type := OrderType.MARKET, qty := 1 }

/-- Registry holding the registered MARKET order. -/
def w4_state : EMState := { active_orders := [w4_market] }

/-- Concrete STOP order with a missing (`None`) stop price, registered for
symbol "E": the corrupted-state fixture of claim C8. -/
def c8_null_stop : ActiveOrder :=
  { client_order_id := "n", symbol := "E", side := Side.SELL,
    type := OrderType.STOP, qty := 1, stop_price := none,
    trigger_price := none, reduce_only := true }

/-- Registry containing only the null-stop-price order. -/
def c8_state : EMState := { active_orders := [c8_null_stop] }

end ExchangeManager

namespace ExchangeManager

/-- C1: for every active conditional order with a positive trigger price T
(validation enforces positivity of registered stop prices) and every price
P, `_check_stop_trigger_with_price` follows the 8-branch matrix with
tolerance 0.0001: STOP/STOP_MARKET — closing-long (SELL, reduce-only)
triggers iff P ≤ T·(1+tol), closing-short (BUY, reduce-only) iff
P ≥ T·(1−tol), opening BUY iff P ≥ T·(1−tol), opening SELL iff
P ≤ T·(1+tol); TAKE_PROFIT/TAKE_PROFIT_MARKET — closing-long iff
P ≥ T·(1−tol), closing-short iff P ≤ T·(1+tol), opening BUY iff
P ≤ T·(1+tol), opening SELL iff P ≥ T·(1−tol). The final conjuncts check
the claim's concrete instances: a closing-long STOP at trigger 100
triggers at 99.99 but not at 100.02, and a closing-short TAKE_PROFIT at
trigger 100 triggers at 99.98 but not at 100.05. -/
theorem c1_stop_trigger_matrix (o : ActiveOrder) (T P : ℚ)
    (hsp : o.stop_price = some T) (hT : 0 < T) :
    ((o.type = OrderType.STOP ∨ o.type = OrderType.STOP_MARKET) →
      (check_stop_trigger_with_price o P = true ↔
        (if o.side = Side.SELL ∧ o.reduce_only = true then P ≤ T * (1 + tolerance)
         else if o.side = Side.BUY ∧ o.reduce_only = true then T * (1 - tolerance) ≤ P
         else if o.side = Side.BUY then T * (1 - tolerance) ≤ P
         else P ≤ T * (1 + tolerance)))) ∧
    ((o.type = OrderType.TAKE_PROFIT ∨ o.type = OrderType.TAKE_PROFIT_MARKET) →
      (check_stop_trigger_with_price o P = true ↔
        (if o.side = Side.SELL ∧ o.reduce_only = true then T * (1 - tolerance) ≤ P
         else if o.side = Side.BUY ∧ o.reduce_only = true then P ≤ T * (1 + tolerance)
         else if o.side = Side.BUY then P ≤ T * (1 + tolerance)
         else T * (1 - tolerance) ≤ P))) ∧
    check_stop_trigger_with_price closing_long_stop_100 (99.99 : ℚ) = true ∧
    check_stop_trigger_with_price closing_long_stop_100 (100.02 : ℚ) = false ∧
    check_stop_trigger_with_price closing_short_tp_100 (99.98 : ℚ) = true ∧
    check_stop_trigger_with_price closing_short_tp_100 (100.05 : ℚ) = false := by
  refine ⟨?_, ?_,
    by norm_num [check_stop_trigger_with_price, closing_long_stop_100, tolerance],
    by norm_num [check_stop_trigger_with_price, closing_long_stop_100, tolerance],
    by norm_num [check_stop_trigger_with_price, closing_short_tp_100, tolerance]; decide,
    by norm_num [check_stop_trigger_with_price, closing_short_tp_100, tolerance]; decide⟩
  · intro htype
    rcases htype with h | h <;>
      simp only [check_stop_trigger_with_price, hsp, if_neg hT.ne', h] <;>
      cases hside : o.side <;> cases hro : o.reduce_only <;>
      simp [decide_eq_true_iff]
  · intro htype
    rcases htype with h | h <;>
      simp only [check_stop_trigger_with_price, hsp, if_neg hT.ne', h] <;>
      cases hside : o.side <;> cases hro : o.reduce_only <;>
      simp [decide_eq_true_iff]

/-- Membership survives removal of a different id. -/
theorem mem_remove_first {l : List ActiveOrder} {id : String} {o : ActiveOrder}
    (h : o ∈ l) (hne : o.client_order_id ≠ id) : o ∈ remove_first l id := by
  induction l with
  | nil => cases h
  | cons x rest ih =>
    unfold remove_first
    rcases List.mem_cons.mp h with rfl | hmem
    · simp [if_neg hne]
    · split
      · exact hmem
      · exact List.mem_cons_of_mem _ (ih hmem)

/-- Removing an absent id leaves the registry unchanged. -/
theorem remove_first_of_find_none {l : List ActiveOrder} {id : String}
    (h : find_order l id = none) : remove_first l id = l := by
  induction l with
  | nil => rfl
  | cons x rest ih =>
    unfold find_order at h
    unfold remove_first
    split
    · simp_all
    · simp_all

/-- `_remove_active_order` acts on the registry exactly as `remove_first`
(the absent-id case is a no-op on both sides). -/
theorem remove_active_order_registry (st : EMState) (id : String) :
    (remove_active_order st id).active_orders = remove_first st.active_orders id := by
  unfold remove_active_order
  cases hf : find_order st.active_orders id with
  | none => simp [remove_first_of_find_none hf]
  | some o => simp

/-- A lookup fails when no entry carries the id. -/
theorem find_order_none_of {l : List ActiveOrder} {id : String}
    (h : ∀ o ∈ l, o.client_order_id ≠ id) : find_order l id = none := by
  induction l with
  | nil => rfl
  | cons x rest ih =>
    unfold find_order
    rw [if_neg (h x (List.mem_cons_self x rest))]
    exact ih (fun o ho => h o (List.mem_cons_of_mem _ ho))

/-- In a well-formed registry, no survivor of a removal carries the
removed id. -/
theorem not_id_mem_remove_first {l : List ActiveOrder} {id : String}
    (hwf : registry_wf l) : ∀ o ∈ remove_first l id, o.client_order_id ≠ id := by
  induction l with
  | nil => intro o ho; cases ho
  | cons x rest ih =>
    rcases List.pairwise_cons.mp hwf with ⟨hx, hrest⟩
    intro o ho
    unfold remove_first at ho
    by_cases hxid : x.client_order_id = id
    · rw [if_pos hxid] at ho
      intro hoid
      exact hx o ho (by rw [hxid, hoid])
    · rw [if_neg hxid] at ho
      rcases List.mem_cons.mp ho with rfl | ho2
      · exact hxid
      · exact ih hrest o ho2

/-- In a well-formed registry, the removed id is gone afterwards. -/
theorem find_remove_first_self {l : List ActiveOrder} {id : String}
    (hwf : registry_wf l) : find_order (remove_first l id) id = none :=
  find_order_none_of (not_id_mem_remove_first hwf)

/-- Projection lemma for `bump_sent`. -/
theorem bump_sent_active (st : EMState) :
    (bump_sent st).stats.active_stops = st.stats.active_stops := rfl

/-- Projection lemma for `bump_filled`. -/
theorem bump_filled_active (st : EMState) :
    (bump_filled st).stats.active_stops = st.stats.active_stops := rfl

/-- Projection lemma for `bump_rejected`. -/
theorem bump_rejected_active (st : EMState) :
    (bump_rejected st).stats.active_stops = st.stats.active_stops := rfl

/-- Projection lemma for `bump_canceled`. -/
theorem bump_canceled_active (st : EMState) :
    (bump_canceled st).stats.active_stops = st.stats.active_stops := rfl

/-- The `active_stops` counter stays zero across `_remove_active_order`:
the only mutation is the clamped decrement `max(0, · - 1)`. -/
theorem active_stops_remove (st : EMState) (id : String)
    (h : st.stats.active_stops = 0) :
    (remove_active_order st id).stats.active_stops = 0 := by
  unfold remove_active_order
  split
  · exact h
  · split
    · show max 0 (st.stats.active_stops - 1) = 0
      rw [h]; decide
    · exact h

/-- `_trigger_stop_order` keeps `active_stops` at zero. -/
theorem active_stops_trigger (st : EMState) (o : ActiveOrder) (p : ℚ)
    (cb : Except String Unit) (h : st.stats.active_stops = 0) :
    (trigger_stop_order st o p cb).state.stats.active_stops = 0 := by
  unfold trigger_stop_order bump_filled
  exact active_stops_remove st o.client_order_id h

/-- The scan of `check_stops_on_price_update` keeps `active_stops` at zero. -/
theorem active_stops_check_go (st : EMState) (sym : String) (p : ℚ)
    (cb : Except String Unit) (l : List ActiveOrder) (h : st.stats.active_stops = 0) :
    (check_stops_go st sym p cb l).1.stats.active_stops = 0 := by
  induction l with
  | nil => exact h
  | cons o rest ih =>
    unfold check_stops_go
    split
    · split
      · exact active_stops_remove st o.client_order_id h
      · rename_i v q heq
        split
        · exact active_stops_remove st o.client_order_id h
        · exact active_stops_trigger _ o q cb (active_stops_remove st o.client_order_id h)
    · exact ih

/-- `update_stop_order` never touches the statistics record. -/
theorem update_stop_order_stats {st s1 : EMState} {sym : String} {nsp : ℚ} {cid : String}
    (h : update_stop_order st sym nsp cid = Except.ok s1) : s1.stats = st.stats := by
  unfold update_stop_order at h
  cases hu : update_first st.active_orders sym nsp cid with
  | none => rw [hu] at h; cases h
  | some reg => rw [hu] at h; cases h; rfl

/-- `_place_order_demo` never touches the statistics record. -/
theorem place_order_demo_stats (st : EMState) (req : OrderReq) :
    (place_order_demo st req).1.stats = st.stats := by
  unfold place_order_demo
  split
  · split
    · split
      · rename_i st1 heq
        exact update_stop_order_stats heq
      · rfl
    · rfl
  · rfl

/-- `place_order_core` keeps `active_stops` at zero through every branch. -/
theorem active_stops_place_core (st : EMState) (req : OrderReq)
    (feed : Option (String → Option ℚ)) (cb : Except String Unit)
    (h : st.stats.active_stops = 0) :
    (place_order_core st req feed cb).state.stats.active_stops = 0 := by
  unfold place_order_core
  split
  · exact (bump_rejected_active st).trans h
  · split
    · exact (bump_sent_active _).trans
        ((congrArg EMStats.active_stops (place_order_demo_stats st req)).trans h)
    · split
      · exact (bump_rejected_active _).trans ((bump_sent_active st).trans h)
      · split
        · exact (bump_filled_active _).trans ((bump_sent_active st).trans h)
        · exact (bump_rejected_active _).trans ((bump_sent_active st).trans h)

/-- `place_order` keeps `active_stops` at zero. -/
theorem active_stops_place (st : EMState) (req : OrderReq)
    (feed : Option (String → Option ℚ)) (cb : Except String Unit)
    (h : st.stats.active_stops = 0) :
    (place_order st req feed cb).state.stats.active_stops = 0 :=
  active_stops_place_core st (normalize_stop_req req) feed cb h

/-- `_cancel_order_demo` keeps `active_stops` at zero. -/
theorem active_stops_cancel (st : EMState) (id : String)
    (h : st.stats.active_stops = 0) :
    (cancel_order_demo st id).1.stats.active_stops = 0 := by
  unfold cancel_order_demo
  split
  · exact h
  · exact (bump_canceled_active _).trans (active_stops_remove st id h)

/-- `_demo_fill_order` keeps `active_stops` at zero. -/
theorem active_stops_fill (st : EMState) (id : String)
    (feed : Option (String → Option ℚ)) (bt : Bool)
    (h : st.stats.active_stops = 0) :
    (demo_fill_order st id feed bt).1.stats.active_stops = 0 := by
  unfold demo_fill_order
  split
  · exact h
  · rename_i o hf
    split
    · exact (bump_rejected_active _).trans (active_stops_remove st o.client_order_id h)
    · exact (bump_filled_active _).trans (active_stops_remove st id h)

end ExchangeManager

namespace ExchangeManager

/-- C10: derivation that every reachable engine state reports
`active_stops = 0` — the counter starts at zero, no modelled operation
ever increments it, and `_remove_active_order` only applies the clamped
decrement `max(0, · - 1)`, so the counter is invariantly zero no matter
how many conditional orders are actually registered. -/
theorem c10_active_stops_zero (s : EMState) (h : ReachableEM s) :
    s.stats.active_stops = 0 := by
  induction h with
  | init => rfl
  | reset s _ _ => rfl
  | place s req feed cb _ ih => exact active_stops_place s req feed cb ih
  | place_demo s req _ ih =>
    rw [congrArg EMStats.active_stops (place_order_demo_stats s req)]
    exact ih
  | cancel s id _ ih => exact active_stops_cancel s id ih
  | fill s id feed bt _ ih => exact active_stops_fill s id feed bt ih
  | check s sym p cb _ ih => exact active_stops_check_go s sym p cb s.active_orders ih
  | update s s1 sym nsp cid _ hok ih =>
    rw [congrArg EMStats.active_stops (update_stop_order_stats hok)]
    exact ih
  | trigger s o p cb _ ih => exact active_stops_trigger s o p cb ih
  | remove s id _ ih => exact active_stops_remove s id ih

/-- Witness for C10: the invariant applied to a concretely reachable state
— registering a STOP order and then cancelling it — whose registry has
seen a conditional order come and go, with the reachability hypothesis
discharged by the step constructors. -/
theorem c10_active_stops_zero_witness :
    ((cancel_order_demo
        (place_order_demo initial_state
          { client_order_id := "s1", symbol := "ETHUSDT", side := Side.SELL,
            type := OrderType.STOP_MARKET, qty := 1, stop_price := some 100,
            reduce_only := true }).1 "s1").1).stats.active_stops = 0 :=
  c10_active_stops_zero _
    (ReachableEM.cancel _ "s1" (ReachableEM.place_demo _ _ ReachableEM.init))

/-- A true trigger verdict needs a truthy (present and nonzero) stop
price: the predicate's leading guard returns false otherwise. -/
theorem trigger_truthy {o : ActiveOrder} {p : ℚ}
    (h : check_stop_trigger_with_price o p = true) :
    ∃ sp, o.stop_price = some sp ∧ sp ≠ 0 := by
  unfold check_stop_trigger_with_price at h
  cases hsp : o.stop_price with
  | none => simp [hsp] at h
  | some sp =>
    simp only [hsp] at h
    refine ⟨sp, rfl, ?_⟩
    intro h0
    rw [if_pos h0] at h
    simp at h

/-- Removing an id that is already absent is a no-op. -/
theorem remove_active_order_of_find_none {st : EMState} {id : String}
    (h : find_order st.active_orders id = none) :
    remove_active_order st id = st := by
  unfold remove_active_order
  rw [h]

/-- `_trigger_stop_order` only removes the triggered order from the
registry. -/
theorem trigger_stop_order_registry (st : EMState) (o : ActiveOrder) (p : ℚ)
    (cb : Except String Unit) :
    (trigger_stop_order st o p cb).state.active_orders =
      remove_first st.active_orders o.client_order_id := by
  unfold trigger_stop_order bump_filled
  exact remove_active_order_registry st o.client_order_id

/-- Removal is idempotent on a well-formed registry. -/
theorem remove_first_idem {l : List ActiveOrder} {id : String}
    (hwf : registry_wf l) : remove_first (remove_first l id) id = remove_first l id :=
  remove_first_of_find_none (find_remove_first_self hwf)

/-- When no registry entry for the symbol is an eligible triggered
STOP/STOP_MARKET order, the scan changes nothing and takes no action. -/
theorem check_stops_go_none (st : EMState) (sym : String) (p : ℚ)
    (cb : Except String Unit) (l : List ActiveOrder)
    (h : first_eligible_stop l sym p = none) :
    check_stops_go st sym p cb l = (st, []) := by
  induction l with
  | nil => rfl
  | cons o rest ih =>
    unfold first_eligible_stop at h
    unfold check_stops_go
    split
    · rename_i hc
      rw [if_pos hc] at h
      cases h
    · rename_i hc
      rw [if_neg hc] at h
      exact ih h

/-- When the first eligible triggered order is `o`, the scan removes `o`,
executes `_trigger_stop_order` at `o`'s recorded stop price, and stops. -/
theorem check_stops_go_found (st : EMState) (sym : String) (p : ℚ)
    (cb : Except String Unit) (l : List ActiveOrder) (o : ActiveOrder)
    (h : first_eligible_stop l sym p = some o) :
    ∃ sp, o.stop_price = some sp ∧ sp ≠ 0 ∧
      check_stops_go st sym p cb l =
        ((trigger_stop_order (remove_active_order st o.client_order_id) o sp cb).state,
         [StopAction.removed o.client_order_id, StopAction.filled o.client_order_id sp,
          StopAction.removed o.client_order_id]) := by
  induction l with
  | nil => cases h
  | cons x rest ih =>
    unfold first_eligible_stop at h
    unfold check_stops_go
    by_cases hc : x.symbol = sym ∧ (x.type = OrderType.STOP ∨ x.type = OrderType.STOP_MARKET) ∧
        check_stop_trigger_with_price x p = true
    · rw [if_pos hc] at h
      cases h
      obtain ⟨sp, hsp, hne⟩ := trigger_truthy hc.2.2
      refine ⟨sp, hsp, hne, ?_⟩
      rw [if_pos hc]
      simp only [hsp]
      rw [if_neg hne]
    · rw [if_neg hc] at h
      rw [if_neg hc]
      exact ih h

/-- C2: for every well-formed registry state and every invocation of
`check_stops_on_price_update(symbol, price)`: at most one order is filled;
when no STOP/STOP_MARKET order for the symbol triggers, nothing happens;
when the first such triggered order is `o`, the action trace is exactly
removal of `o`, then the fill of `o` at `o`'s recorded stop price, then
the trigger routine's idempotent re-removal — so `o` is removed from the
registry strictly before its fill executes, the fill price is the recorded
stop price, and every other order (in particular every other eligible
order) remains in the registry for a later call. -/
theorem c2_check_stops_single_fill (st : EMState) (sym : String) (p : ℚ)
    (cb : Except String Unit) (hwf : registry_wf st.active_orders) :
    fill_count (check_stops_on_price_update st sym p cb).2 ≤ 1 ∧
    (first_eligible_stop st.active_orders sym p = none →
      check_stops_on_price_update st sym p cb = (st, [])) ∧
    (∀ o, first_eligible_stop st.active_orders sym p = some o →
      ∃ sp, o.stop_price = some sp ∧ sp ≠ 0 ∧
        (check_stops_on_price_update st sym p cb).2 =
          [StopAction.removed o.client_order_id,
           StopAction.filled o.client_order_id sp,
           StopAction.removed o.client_order_id] ∧
        (check_stops_on_price_update st sym p cb).1.active_orders =
          remove_first st.active_orders o.client_order_id ∧
        ∀ o2 ∈ st.active_orders, o2.client_order_id ≠ o.client_order_id →
          o2 ∈ (check_stops_on_price_update st sym p cb).1.active_orders) := by
  refine ⟨?_, ?_, ?_⟩
  · cases hfe : first_eligible_stop st.active_orders sym p with
    | none =>
      unfold check_stops_on_price_update
      rw [check_stops_go_none st sym p cb st.active_orders hfe]
      simp [fill_count]
    | some o =>
      obtain ⟨sp, hsp, hne, heq⟩ := check_stops_go_found st sym p cb st.active_orders o hfe
      unfold check_stops_on_price_update
      rw [heq]
      simp [fill_count]
  · intro hfe
    unfold check_stops_on_price_update
    exact check_stops_go_none st sym p cb st.active_orders hfe
  · intro o hfe
    obtain ⟨sp, hsp, hne, heq⟩ := check_stops_go_found st sym p cb st.active_orders o hfe
    have hreg : (check_stops_on_price_update st sym p cb).1.active_orders =
        remove_first st.active_orders o.client_order_id := by
      unfold check_stops_on_price_update
      rw [heq]
      show (trigger_stop_order (remove_active_order st o.client_order_id) o sp cb).state.active_orders = _
      rw [trigger_stop_order_registry, remove_active_order_registry,
        remove_first_idem hwf]
    refine ⟨sp, hsp, hne, ?_, hreg, ?_⟩
    · unfold check_stops_on_price_update
      rw [heq]
    · intro o2 hmem hne2
      rw [hreg]
      exact mem_remove_first hmem hne2

/-- Witness for C2: a concrete two-order registry (one order on another
symbol, one closing-long STOP on symbol "E") checked at price 95: the
well-formedness and first-eligible hypotheses are discharged concretely
and the characterization is obtained from the theorem. -/
theorem c2_check_stops_single_fill_witness :
    ∃ sp, w2_hit.stop_price = some sp ∧ sp ≠ 0 ∧
      (check_stops_on_price_update w2_state "E" 95 (Except.ok ())).2 =
        [StopAction.removed w2_hit.client_order_id,
         StopAction.filled w2_hit.client_order_id sp,
         StopAction.removed w2_hit.client_order_id] ∧
      (check_stops_on_price_update w2_state "E" 95 (Except.ok ())).1.active_orders =
        remove_first w2_state.active_orders w2_hit.client_order_id ∧
      ∀ o2 ∈ w2_state.active_orders, o2.client_order_id ≠ w2_hit.client_order_id →
        o2 ∈ (check_stops_on_price_update w2_state "E" 95 (Except.ok ())).1.active_orders :=
  (c2_check_stops_single_fill w2_state "E" 95 (Except.ok ())
    (by simp [registry_wf, w2_state, w2_other, w2_hit])).2.2 w2_hit
    (by norm_num [first_eligible_stop, w2_state, w2_other, w2_hit,
      check_stop_trigger_with_price, tolerance, String.ext_iff]; decide)

/-- The `update_stop_order` scan finds nothing when no registry entry
matches the symbol and type family. -/
theorem update_first_none (l : List ActiveOrder) (sym : String) (nsp : ℚ) (cid : String)
    (h : ∀ x ∈ l, ¬(x.symbol = sym ∧ is_stop_family x.type = true)) :
    update_first l sym nsp cid = none := by
  induction l with
  | nil => rfl
  | cons y rest ih =>
    unfold update_first
    rw [if_neg (h y (List.mem_cons_self y rest)),
      ih (fun x hx => h x (List.mem_cons_of_mem _ hx))]
    rfl

/-- When some registry entry matches, the `update_stop_order` scan mutates
exactly the first match in place (new stop price and correlation id),
leaving every other entry and the order of the list unchanged. -/
theorem update_first_found (l : List ActiveOrder) (sym : String) (nsp : ℚ) (cid : String)
    (h : ∃ x ∈ l, x.symbol = sym ∧ is_stop_family x.type = true) :
    ∃ pre o post, l = pre ++ o :: post ∧
      (∀ x ∈ pre, ¬(x.symbol = sym ∧ is_stop_family x.type = true)) ∧
      o.symbol = sym ∧ is_stop_family o.type = true ∧
      update_first l sym nsp cid =
        some (pre ++ { o with stop_price := some nsp, correlation_id := some cid } :: post) := by
  induction l with
  | nil =>
    rcases h with ⟨x, hx, _⟩
    cases hx
  | cons y rest ih =>
    by_cases hy : y.symbol = sym ∧ is_stop_family y.type = true
    · refine ⟨[], y, rest, rfl, by simp, hy.1, hy.2, ?_⟩
      unfold update_first
      rw [if_pos hy]
      rfl
    · have h2 : ∃ x ∈ rest, x.symbol = sym ∧ is_stop_family x.type = true := by
        rcases h with ⟨x, hx, hprop⟩
        rcases List.mem_cons.mp hx with rfl | hx2
        · exact absurd hprop hy
        · exact ⟨x, hx2, hprop⟩
      obtain ⟨pre, o, post, hdec, hpre, ho1, ho2, hupd⟩ := ih h2
      refine ⟨y :: pre, o, post, by rw [hdec]; rfl, ?_, ho1, ho2, ?_⟩
      · intro x hx
        rcases List.mem_cons.mp hx with rfl | hx2
        · exact hy
        · exact hpre x hx2
      · unfold update_first
        rw [if_neg hy, hupd]
        rfl

/-- A correlation id containing a trailing marker is nonempty. -/
theorem marker_nonempty {c : String} (h : has_trailing_marker c = true) : c ≠ "" :=
  fun hc => absurd (hc ▸ h) (by decide)

/-- C6: a STOP-family request whose correlation id contains a trailing
marker and that carries a stop price never inserts a new order (the
registry size is unchanged in every case). If some active conditional
order for the symbol exists, the first such order has its stop (trigger)
price and correlation id mutated in place — no other entry changes — and
the acknowledgement is REPLACED; otherwise the acknowledgement is a
rejection carrying the no-active-stop `InvalidOrderError` message and the
state is untouched. Hence two successive trailing updates for one symbol
can never produce two conditional orders for it. -/
theorem c6_trailing_update_replaced (st : EMState) (req : OrderReq) (c : String) (sp : ℚ)
    (hs : is_stop_family req.type = true)
    (hc : req.correlation_id = some c)
    (hm : has_trailing_marker c = true)
    (hsp : req.stop_price = some sp) :
    ((place_order_demo st req).1.active_orders.length = st.active_orders.length) ∧
    ((∃ x ∈ st.active_orders, x.symbol = req.symbol ∧ is_stop_family x.type = true) →
      (place_order_demo st req).2.status = "REPLACED" ∧
      ∃ pre o post, st.active_orders = pre ++ o :: post ∧
        (∀ x ∈ pre, ¬(x.symbol = req.symbol ∧ is_stop_family x.type = true)) ∧
        o.symbol = req.symbol ∧ is_stop_family o.type = true ∧
        (place_order_demo st req).1.active_orders =
          pre ++ { o with stop_price := some sp, correlation_id := some c } :: post) ∧
    ((¬ ∃ x ∈ st.active_orders, x.symbol = req.symbol ∧ is_stop_family x.type = true) →
      (place_order_demo st req).2.status = "REJECTED" ∧
      (place_order_demo st req).2.error_message = some (no_active_stop_msg req.symbol) ∧
      (place_order_demo st req).1 = st) := by
  have htr : is_stop_family req.type = true ∧ truthy_str req.correlation_id = true ∧
      has_trailing_marker ((req.correlation_id).getD "") = true := by
    refine ⟨hs, ?_, ?_⟩
    · rw [hc]
      unfold truthy_str
      simp [marker_nonempty hm]
    · rw [hc, Option.getD_some]
      exact hm
  by_cases hex : ∃ x ∈ st.active_orders, x.symbol = req.symbol ∧ is_stop_family x.type = true
  · obtain ⟨pre, o, post, hdec, hpre, ho1, ho2, hupd⟩ :=
      update_first_found st.active_orders req.symbol sp c hex
    have key : place_order_demo st req =
        ({ st with active_orders :=
            pre ++ { o with stop_price := some sp, correlation_id := some c } :: post },
         { status := "REPLACED", client_order_id := req.client_order_id }) := by
      unfold place_order_demo
      rw [if_pos htr]
      simp only [hsp, hc, Option.getD_some]
      unfold update_stop_order
      rw [hupd]
    refine ⟨?_, fun _ => ⟨by rw [key], pre, o, post, hdec, hpre, ho1, ho2, by rw [key]⟩,
      fun hnex => absurd hex hnex⟩
    rw [key, hdec]
    simp
  · have hupd := update_first_none st.active_orders req.symbol sp c
      (fun x hx hprop => hex ⟨x, hx, hprop⟩)
    have key : place_order_demo st req =
        (st, { status := "REJECTED", client_order_id := req.client_order_id,
               error_message := some (no_active_stop_msg req.symbol) }) := by
      unfold place_order_demo
      rw [if_pos htr]
      simp only [hsp, hc, Option.getD_some]
      unfold update_stop_order
      rw [hupd]
    exact ⟨by rw [key], fun hex2 => absurd hex2 hex,
      fun _ => ⟨by rw [key], by rw [key], by rw [key]⟩⟩

/-- Witness for C6: the trailing request `w6_req` against the two-order
registry `w2_state` (whose second entry is the matching STOP for symbol
"E"), with every hypothesis discharged concretely. -/
theorem c6_trailing_update_replaced_witness :
    ((place_order_demo w2_state w6_req).1.active_orders.length =
      w2_state.active_orders.length) ∧
    ((∃ x ∈ w2_state.active_orders,
        x.symbol = w6_req.symbol ∧ is_stop_family x.type = true) →
      (place_order_demo w2_state w6_req).2.status = "REPLACED" ∧
      ∃ pre o post, w2_state.active_orders = pre ++ o :: post ∧
        (∀ x ∈ pre, ¬(x.symbol = w6_req.symbol ∧ is_stop_family x.type = true)) ∧
        o.symbol = w6_req.symbol ∧ is_stop_family o.type = true ∧
        (place_order_demo w2_state w6_req).1.active_orders =
          pre ++ { o with stop_price := some 105, correlation_id := some "trail_1" } :: post) ∧
    ((¬ ∃ x ∈ w2_state.active_orders,
        x.symbol = w6_req.symbol ∧ is_stop_family x.type = true) →
      (place_order_demo w2_state w6_req).2.status = "REJECTED" ∧
      (place_order_demo w2_state w6_req).2.error_message =
        some (no_active_stop_msg w6_req.symbol) ∧
      (place_order_demo w2_state w6_req).1 = w2_state) :=
  c6_trailing_update_replaced w2_state w6_req "trail_1" 105 rfl rfl (by decide) rfl

/-- Explicit computation of the `update_stop_order` scan on a decomposed
registry whose prefix has no match. -/
theorem update_first_decomp (pre : List ActiveOrder) (o : ActiveOrder)
    (post : List ActiveOrder) (sym : String) (nsp : ℚ) (cid : String)
    (hpre : ∀ x ∈ pre, ¬(x.symbol = sym ∧ is_stop_family x.type = true))
    (ho : o.symbol = sym ∧ is_stop_family o.type = true) :
    update_first (pre ++ o :: post) sym nsp cid =
      some (pre ++ { o with stop_price := some nsp, correlation_id := some cid } :: post) := by
  induction pre with
  | nil =>
    simp only [List.nil_append]
    unfold update_first
    rw [if_pos ho]
  | cons y ys ih =>
    simp only [List.cons_append]
    unfold update_first
    rw [if_neg (hpre y (List.mem_cons_self y ys)),
      ih (fun x hx => hpre x (List.mem_cons_of_mem _ hx))]
    rfl

/-- Lookup on a decomposed registry whose prefix avoids the id. -/
theorem find_order_append (pre : List ActiveOrder) (o : ActiveOrder)
    (post : List ActiveOrder) (id : String)
    (hpre : ∀ x ∈ pre, x.client_order_id ≠ id) (ho : o.client_order_id = id) :
    find_order (pre ++ o :: post) id = some o := by
  induction pre with
  | nil =>
    simp only [List.nil_append]
    unfold find_order
    rw [if_pos ho]
  | cons y ys ih =>
    simp only [List.cons_append]
    unfold find_order
    rw [if_neg (hpre y (List.mem_cons_self y ys))]
    exact ih (fun x hx => hpre x (List.mem_cons_of_mem _ hx))

/-- In backtest mode, `_demo_fill_order` fills an order carrying a trigger
price exactly at that trigger price (the feed only has to produce a truthy
current price for the symbol). -/
theorem demo_fill_at_trigger (st : EMState) (id : String) (o : ActiveOrder)
    (f : String → Option ℚ) (pQ t : ℚ)
    (hfind : find_order st.active_orders id = some o)
    (ht : o.trigger_price = some t)
    (hfeed : f o.symbol = some pQ) (hpQ : pQ ≠ 0) :
    ∃ upd, (demo_fill_order st id (some f) true).2 = some upd ∧
      upd.avg_price = some t := by
  have hres : resolve_current_price o (some f) = some pQ := by
    simp only [resolve_current_price, hfeed]
    rw [if_neg hpQ]
  unfold demo_fill_order
  simp only [hfind, hres, ht]
  exact ⟨_, rfl, rfl⟩

/-- C9: `update_stop_order` mutates only the `stop_price` and
`correlation_id` fields of the first matching conditional order — the
registry keeps the same prefix, suffix and entry identity, and in
particular the `trigger_price` field keeps its registration-time value.
Consequently a subsequent fill through the demo fill path (which fills at
`trigger_price`) executes at the original registration trigger price `t`,
not at the updated stop price. -/
theorem c9_update_frame_trigger_price (st : EMState) (pre post : List ActiveOrder)
    (o : ActiveOrder) (sym cid : String) (nsp t pQ : ℚ) (f : String → Option ℚ)
    (hdecomp : st.active_orders = pre ++ o :: post)
    (hpre : ∀ x ∈ pre, ¬(x.symbol = sym ∧ is_stop_family x.type = true))
    (hosym : o.symbol = sym) (hofam : is_stop_family o.type = true)
    (ht : o.trigger_price = some t)
    (hid : ∀ x ∈ pre, x.client_order_id ≠ o.client_order_id)
    (hfeed : f o.symbol = some pQ) (hpQ : pQ ≠ 0) :
    ∃ st1, update_stop_order st sym nsp cid = Except.ok st1 ∧
      st1.active_orders =
        pre ++ { o with stop_price := some nsp, correlation_id := some cid } :: post ∧
      ({ o with stop_price := some nsp, correlation_id := some cid } :
        ActiveOrder).trigger_price = o.trigger_price ∧
      ∃ upd, (demo_fill_order st1 o.client_order_id (some f) true).2 = some upd ∧
        upd.avg_price = some t ∧
        (t ≠ nsp → upd.avg_price ≠ some nsp) := by
  have hupd : update_first st.active_orders sym nsp cid =
      some (pre ++ { o with stop_price := some nsp, correlation_id := some cid } :: post) := by
    rw [hdecomp]
    exact update_first_decomp pre o post sym nsp cid hpre ⟨hosym, hofam⟩
  refine ⟨{ st with active_orders :=
      pre ++ { o with stop_price := some nsp, correlation_id := some cid } :: post },
    ?_, rfl, rfl, ?_⟩
  · unfold update_stop_order
    rw [hupd]
  · have hfind : find_order
        (pre ++ { o with stop_price := some nsp, correlation_id := some cid } :: post)
        o.client_order_id =
        some { o with stop_price := some nsp, correlation_id := some cid } :=
      find_order_append pre _ post o.client_order_id hid rfl
    obtain ⟨upd, h1, h2⟩ := demo_fill_at_trigger
      { st with active_orders :=
          pre ++ { o with stop_price := some nsp, correlation_id := some cid } :: post }
      o.client_order_id
      { o with stop_price := some nsp, correlation_id := some cid }
      f pQ t hfind ht hfeed hpQ
    refine ⟨upd, h1, h2, fun hne h2n => hne ?_⟩
    exact Option.some.inj (h2.symm.trans h2n)

/-- Witness for C9: the concrete registry `w2_state` updated for symbol
"E" (new stop 105) and then filled through the demo path with a feed at
95: the fill executes at the original trigger 100, not 105. -/
theorem c9_update_frame_trigger_price_witness :
    ∃ st1, update_stop_order w2_state "E" 105 "trail_2" = Except.ok st1 ∧
      st1.active_orders =
        [w2_other] ++
          { w2_hit with stop_price := some 105, correlation_id := some "trail_2" } :: [] ∧
      ({ w2_hit with stop_price := some 105, correlation_id := some "trail_2" } :
        ActiveOrder).trigger_price = w2_hit.trigger_price ∧
      ∃ upd, (demo_fill_order st1 w2_hit.client_order_id
          (some (fun _ => some 95)) true).2 = some upd ∧
        upd.avg_price = some 100 ∧
        ((100 : ℚ) ≠ 105 → upd.avg_price ≠ some 105) :=
  c9_update_frame_trigger_price w2_state [w2_other] [] w2_hit "E" "trail_2" 105 100 95
    (fun _ => some 95) rfl (by decide) rfl rfl rfl (by decide) rfl (by norm_num)

/-- Witness for C1: the matrix theorem instantiated at a concrete
closing-long STOP order with trigger 100 and price 99.99, with the
positivity hypothesis discharged there. -/
theorem c1_stop_trigger_matrix_witness :
    closing_long_stop_100.stop_price = some 100 ∧ (0 : ℚ) < 100 ∧
    (check_stop_trigger_with_price closing_long_stop_100 (99.99 : ℚ) = true) := by
  refine ⟨rfl, by norm_num, ?_⟩
  exact (c1_stop_trigger_matrix closing_long_stop_100 100 (99.99 : ℚ) rfl
    (by norm_num)).2.2.1

/-- Dict assignment on a registry already holding the key replaces the
entry in place. -/
theorem registry_insert_replace (pre post : List ActiveOrder) (x o : ActiveOrder)
    (hpre : ∀ y ∈ pre, y.client_order_id ≠ o.client_order_id)
    (hx : x.client_order_id = o.client_order_id) :
    registry_insert (pre ++ x :: post) o = pre ++ o :: post := by
  induction pre with
  | nil =>
    simp only [List.nil_append]
    unfold registry_insert
    rw [if_pos hx]
  | cons y ys ih =>
    simp only [List.cons_append]
    unfold registry_insert
    rw [if_neg (hpre y (List.mem_cons_self y ys)),
      ih (fun z hz => hpre z (List.mem_cons_of_mem _ hz))]

/-- C3 counterexample: the registry already holds the LIMIT order `c3_x`
under id "X"; placing the MARKET request `c3_req` with the same id "X"
through the demo path is *not* rejected — the acknowledgement is NEW, and
the registry entry at "X" is now the new MARKET order, so the existing
order was not left unchanged. This refutes the claim that a duplicate id
insert is rejected. -/
theorem c3_duplicate_insert_counterexample :
    find_order c3_state.active_orders "X" = some c3_x ∧
    c3_x.type = OrderType.LIMIT ∧
    (place_order_demo c3_state c3_req).2.status = "NEW" ∧
    (place_order_demo c3_state c3_req).2.status ≠ "REJECTED" ∧
    (find_order (place_order_demo c3_state c3_req).1.active_orders "X").map
      (fun o => o.type) = some OrderType.MARKET := by
  refine ⟨rfl, rfl, rfl, ?_, rfl⟩
  decide

/-- C3 amended: inserting through `_place_order_demo` with an id that
already exists is not rejected — the request (when it does not take the
trailing-update route) is acknowledged NEW and the freshly built order
replaces the existing entry in place, all other entries unchanged. -/
theorem c3_duplicate_insert_replaces (st : EMState) (req : OrderReq)
    (pre post : List ActiveOrder) (x : ActiveOrder)
    (hnotr : ¬(is_stop_family req.type = true ∧ truthy_str req.correlation_id = true ∧
        has_trailing_marker ((req.correlation_id).getD "") = true))
    (hdecomp : st.active_orders = pre ++ x :: post)
    (hpre : ∀ y ∈ pre, y.client_order_id ≠ req.client_order_id)
    (hx : x.client_order_id = req.client_order_id) :
    (place_order_demo st req).2.status = "NEW" ∧
    (place_order_demo st req).1.active_orders =
      pre ++ (if req.type = OrderType.LIMIT then { mk_demo_order req with status := "WORKING" }
              else mk_demo_order req) :: post := by
  have hkey : place_order_demo st req = place_order_demo_insert st req := by
    unfold place_order_demo
    rw [if_neg hnotr]
  have hoid : (if req.type = OrderType.LIMIT
      then { mk_demo_order req with status := "WORKING" }
      else mk_demo_order req).client_order_id = req.client_order_id := by
    split <;> rfl
  rw [hkey]
  unfold place_order_demo_insert
  refine ⟨rfl, ?_⟩
  show registry_insert st.active_orders _ = _
  rw [hdecomp]
  exact registry_insert_replace pre post x _
    (fun y hy => fun hcon => hpre y hy (hcon.trans hoid))
    (hx.trans hoid.symm)

/-- Witness for C3's amended statement: the concrete duplicate insert of
`c3_req` over `c3_state`, with all hypotheses discharged concretely. -/
theorem c3_duplicate_insert_replaces_witness :
    (place_order_demo c3_state c3_req).2.status = "NEW" ∧
    (place_order_demo c3_state c3_req).1.active_orders =
      [] ++ (if c3_req.type = OrderType.LIMIT
             then { mk_demo_order c3_req with status := "WORKING" }
             else mk_demo_order c3_req) :: [] :=
  c3_duplicate_insert_replaces c3_state c3_req [] [] c3_x
    (by decide) rfl (by decide) rfl

/-- C4 counterexample: a valid MARKET BUY of qty 1 placed through
`place_order` against a feed reporting 2000 fills at 2000 — the raw feed
price, not 2000·(1+0.001) = 2002 — refuting the claim that every MARKET
fill against a price feed is adjusted by the 0.1% directional slippage. -/
theorem c4_market_slippage_counterexample :
    (place_order initial_state c4_req c4_feed (Except.ok ())).ack.status = "FILLED" ∧
    (place_order initial_state c4_req c4_feed (Except.ok ())).ack.avg_price = some 2000 ∧
    (2000 : ℚ) ≠ 2000 * (1 + demo_slippage_pct) := by
  refine ⟨rfl, rfl, ?_⟩
  norm_num [demo_slippage_pct]

/-- C4 amended: the directional 0.1% slippage applies to MARKET orders
filled through the internal demo fill routine `_demo_fill_order` (BUY
fills at P+P·0.001, SELL at P−P·0.001, so a BUY at feed 2000 fills at
2002); MARKET orders submitted through `place_order`'s instant path fill
at the unadjusted resolved feed price P. -/
theorem c4_market_slippage_amended :
    (∀ (st : EMState) (id : String) (o : ActiveOrder) (f : String → Option ℚ)
        (P : ℚ) (bt : Bool),
      find_order st.active_orders id = some o →
      o.type = OrderType.MARKET → o.trigger_price = none →
      f o.symbol = some P → P ≠ 0 →
      ∃ upd, (demo_fill_order st id (some f) bt).2 = some upd ∧
        upd.avg_price = some (if o.side = Side.BUY then P + P * demo_slippage_pct
                              else P - P * demo_slippage_pct)) ∧
    (∀ (st : EMState) (req : OrderReq) (f : String → Option ℚ) (P : ℚ),
      req.type = OrderType.MARKET → req.price = none → req.stop_price = none →
      req.client_order_id ≠ "" → req.symbol ≠ "" → 0 < req.qty →
      f req.symbol = some P → P ≠ 0 →
      (place_order st req (some f) (Except.ok ())).ack.status = "FILLED" ∧
      (place_order st req (some f) (Except.ok ())).ack.avg_price = some P) ∧
    (2000 : ℚ) + 2000 * demo_slippage_pct = 2002 := by
  refine ⟨?_, ?_, by norm_num [demo_slippage_pct]⟩
  · intro st id o f P bt hfind htype ht hfeed hP
    have hres : resolve_current_price o (some f) = some P := by
      simp only [resolve_current_price, hfeed]
      rw [if_neg hP]
    unfold demo_fill_order
    simp only [hfind, hres, ht, htype]
    cases hside : o.side <;> simp [hside]
  · intro st req f P htype hprice hstop hid hsym hqty hfeed hP
    have hnorm : normalize_stop_req req = req := by
      unfold normalize_stop_req
      rw [if_neg]
      rintro ⟨h1, -, -⟩
      rw [htype] at h1
      exact absurd h1 (by decide)
    have hval : validate_order_req req = Except.ok () := by
      simp [validate_order_req, hid, hsym, hprice, hstop, htype, nonpos_opt,
        not_le.mpr hqty, is_stop_family]
    have hres2 : resolve_instant_fill_price req (some f) = some P := by
      simp [resolve_instant_fill_price, truthy_num, hprice, hfeed, hP]
    constructor <;>
      simp [place_order, hnorm, place_order_core, hval, hres2, htype, is_stop_family]

/-- Witness for C4's amended statement: the registered MARKET order
`w4_market` filled through the demo path at feed price 2000 (slippage
applies), and the MARKET request `c4_req` filled through `place_order` at
feed price 2000 (no slippage), with all hypotheses discharged. -/
theorem c4_market_slippage_amended_witness :
    (∃ upd, (demo_fill_order w4_state "m2" (some (fun _ => some 2000)) true).2 = some upd ∧
      upd.avg_price = some (if w4_market.side = Side.BUY
        then 2000 + 2000 * demo_slippage_pct
        else 2000 - 2000 * demo_slippage_pct)) ∧
    ((place_order initial_state c4_req (some (fun _ => some 2000))
        (Except.ok ())).ack.status = "FILLED" ∧
     (place_order initial_state c4_req (some (fun _ => some 2000))
        (Except.ok ())).ack.avg_price = some 2000) :=
  ⟨c4_market_slippage_amended.1 w4_state "m2" w4_market (fun _ => some 2000) 2000 true
      rfl rfl rfl rfl (by norm_num),
   c4_market_slippage_amended.2.1 initial_state c4_req (fun _ => some 2000) 2000
      rfl rfl rfl (by decide) (by decide) (by norm_num [c4_req]) rfl (by norm_num)⟩

/-- C5 counterexample: a LIMIT order (price 100, qty 1) filled through
`place_order`'s instant path carries commission 100·1·0.0004 = 0.04 — the
hard-coded taker rate — not the maker rate 0.0002 the claim requires for
LIMIT fills. -/
theorem c5_commission_counterexample :
    c5_req.type = OrderType.LIMIT ∧
    (place_order initial_state c5_req none (Except.ok ())).ack.status = "FILLED" ∧
    (place_order initial_state c5_req none (Except.ok ())).emitted.map
      (fun u => u.commission) = [some (1 / 25 : ℚ)] ∧
    (1 / 25 : ℚ) ≠ 100 * 1 * maker_fee_rate := by
  refine ⟨rfl, rfl, ?_, by norm_num [maker_fee_rate]⟩
  show [some ((1 : ℚ) * 100 * taker_fee_rate)] = [some (1 / 25 : ℚ)]
  norm_num [taker_fee_rate]

/-- C5 amended: `_calculate_commission` is price × qty × rate with maker
rate 0.0002 and taker rate 0.0004, and the demo fill path passes
maker exactly for LIMIT orders; but triggered stop fills always charge the
taker rate, and every fill through `place_order`'s instant path — LIMIT
orders included — charges the hard-coded taker rate 0.0004. -/
theorem c5_commission_amended :
    (∀ (p q : ℚ), calculate_commission p q true = p * q * (2 / 10000) ∧
        calculate_commission p q false = p * q * (4 / 10000)) ∧
    (∀ (st : EMState) (id : String) (o : ActiveOrder) (f : String → Option ℚ)
        (P : ℚ) (bt : Bool),
      find_order st.active_orders id = some o →
      f o.symbol = some P → P ≠ 0 →
      ∃ upd fp, (demo_fill_order st id (some f) bt).2 = some upd ∧
        upd.avg_price = some fp ∧
        upd.commission = some (calculate_commission fp o.qty
          (decide (o.type = OrderType.LIMIT)))) ∧
    (∀ (st : EMState) (o : ActiveOrder) (p : ℚ) (cb : Except String Unit),
      (trigger_stop_order st o p cb).fill.commission =
        some (p * o.qty * taker_fee_rate)) ∧
    (∀ (st : EMState) (req : OrderReq) (prq : ℚ),
      req.type = OrderType.LIMIT → req.price = some prq → 0 < prq →
      req.stop_price = none → req.client_order_id ≠ "" → req.symbol ≠ "" →
      0 < req.qty →
      (place_order st req none (Except.ok ())).ack.status = "FILLED" ∧
      (place_order st req none (Except.ok ())).emitted.map (fun u => u.commission) =
        [some (req.qty * prq * taker_fee_rate)]) := by
  refine ⟨?_, ?_, ?_, ?_⟩
  · intro p q
    constructor <;> simp [calculate_commission, maker_fee_rate, taker_fee_rate]
  · intro st id o f P bt hfind hfeed hP
    have hres : resolve_current_price o (some f) = some P := by
      simp only [resolve_current_price, hfeed]
      rw [if_neg hP]
    unfold demo_fill_order
    simp only [hfind, hres]
    exact ⟨_, _, rfl, rfl, rfl⟩
  · intro st o p cb
    rfl
  · intro st req prq htype hprice hpos hstop hid hsym hqty
    have hnorm : normalize_stop_req req = req := by
      unfold normalize_stop_req
      rw [if_neg]
      rintro ⟨h1, -, -⟩
      rw [htype] at h1
      exact absurd h1 (by decide)
    have hval : validate_order_req req = Except.ok () := by
      simp [validate_order_req, hid, hsym, hprice, hstop, htype, nonpos_opt,
        not_le.mpr hqty, not_le.mpr hpos, is_stop_family]
    have hres : resolve_instant_fill_price req none = some prq := by
      simp [resolve_instant_fill_price, truthy_num, hprice, hpos.ne']
    constructor <;>
      simp [place_order, hnorm, place_order_core, hval, hres, htype, is_stop_family]

/-- Witness for C5's amended statement: the LIMIT request `c5_req` (price
100, qty 1) through `place_order`, its taker-rate commission obtained from
the theorem with all hypotheses discharged. -/
theorem c5_commission_amended_witness :
    (place_order initial_state c5_req none (Except.ok ())).ack.status = "FILLED" ∧
    (place_order initial_state c5_req none (Except.ok ())).emitted.map
      (fun u => u.commission) = [some (c5_req.qty * 100 * taker_fee_rate)] :=
  c5_commission_amended.2.2.2 initial_state c5_req 100 rfl rfl (by norm_num) rfl
    (by decide) (by decide) (by norm_num [c5_req])

/-- C7 counterexample: take the valid MARKET request `c4_req` against the
feed at 2000. With a callback that raises, `place_order` returns a
REJECTED acknowledgement; with a callback that succeeds it returns FILLED
— so the resulting acknowledgement is *not* the same as if the callback
had succeeded, refuting that part of the claim. -/
theorem c7_callback_isolation_counterexample :
    (place_order initial_state c4_req c4_feed (Except.error "boom")).ack.status =
      "REJECTED" ∧
    (place_order initial_state c4_req c4_feed (Except.ok ())).ack.status = "FILLED" ∧
    ("REJECTED" : String) ≠ "FILLED" :=
  ⟨rfl, rfl, by decide⟩

/-- C7 amended: callback exceptions are caught and never propagate, but
the terminal outcome is preserved only on the stop-trigger path. For
`_trigger_stop_order`, the resulting state (the order's removal included)
and the delivered fill are identical whether or not the callback raised.
For `place_order`'s instant fill, the FILLED update is still delivered and
the registry is untouched either way, but a callback exception turns the
acknowledgement into REJECTED "Callback failed" instead of FILLED. -/
theorem c7_callback_isolation_amended :
    (∀ (st : EMState) (o : ActiveOrder) (p : ℚ) (cb : Except String Unit),
      (trigger_stop_order st o p cb).state =
        (trigger_stop_order st o p (Except.ok ())).state ∧
      (trigger_stop_order st o p cb).fill =
        (trigger_stop_order st o p (Except.ok ())).fill) ∧
    (∀ (st : EMState) (req : OrderReq) (feed : Option (String → Option ℚ))
        (P : ℚ) (e : String),
      is_stop_family req.type = false →
      validate_order_req req = Except.ok () →
      resolve_instant_fill_price req feed = some P →
      (place_order_core st req feed (Except.error e)).ack.status = "REJECTED" ∧
      (place_order_core st req feed (Except.error e)).ack.error =
        some ("Callback failed: " ++ e) ∧
      (place_order_core st req feed (Except.error e)).emitted =
        (place_order_core st req feed (Except.ok ())).emitted ∧
      (place_order_core st req feed (Except.ok ())).ack.status = "FILLED" ∧
      (place_order_core st req feed (Except.error e)).state.active_orders =
        (place_order_core st req feed (Except.ok ())).state.active_orders) := by
  constructor
  · intro st o p cb
    exact ⟨rfl, rfl⟩
  · intro st req feed P e hns hval hres
    refine ⟨?_, ?_, ?_, ?_, ?_⟩ <;>
      simp [place_order_core, hval, hres, hns, bump_rejected, bump_filled, bump_sent]

/-- Witness for C7's amended statement: the trigger-path preservation at a
concrete triggered stop with a raising callback, and the instant-path
contrast at the concrete MARKET request `c4_req`, with the path hypotheses
discharged concretely. -/
theorem c7_callback_isolation_amended_witness :
    ((trigger_stop_order w2_state w2_hit 100 (Except.error "boom")).state =
        (trigger_stop_order w2_state w2_hit 100 (Except.ok ())).state ∧
      (trigger_stop_order w2_state w2_hit 100 (Except.error "boom")).fill =
        (trigger_stop_order w2_state w2_hit 100 (Except.ok ())).fill) ∧
    ((place_order_core initial_state c4_req c4_feed (Except.error "boom")).ack.status =
        "REJECTED" ∧
      (place_order_core initial_state c4_req c4_feed (Except.error "boom")).ack.error =
        some ("Callback failed: " ++ "boom") ∧
      (place_order_core initial_state c4_req c4_feed (Except.error "boom")).emitted =
        (place_order_core initial_state c4_req c4_feed (Except.ok ())).emitted ∧
      (place_order_core initial_state c4_req c4_feed (Except.ok ())).ack.status =
        "FILLED" ∧
      (place_order_core initial_state c4_req c4_feed
          (Except.error "boom")).state.active_orders =
        (place_order_core initial_state c4_req c4_feed
          (Except.ok ())).state.active_orders) :=
  ⟨c7_callback_isolation_amended.1 w2_state w2_hit 100 (Except.error "boom"),
   c7_callback_isolation_amended.2 initial_state c4_req c4_feed 2000 "boom"
     rfl rfl rfl⟩

/-- C8: evidence for the code bug. The registry holds a STOP order for
symbol "E" whose stop price is `None`. The trigger predicate returns false
for it (its leading guard), so the synchronous evaluation pass never
reaches its "remove corrupted order" branch: `check_stops_on_price_update`
returns the state unchanged with no action, and the null-trigger order is
still in the registry afterwards — the pass does not remove it, contrary
to the claim (and to the source's own comment on the dead removal
branch). -/
theorem c8_null_stop_price_not_removed :
    c8_null_stop.stop_price = none ∧
    check_stop_trigger_with_price c8_null_stop 95 = false ∧
    check_stops_on_price_update c8_state "E" 95 (Except.ok ()) = (c8_state, []) ∧
    find_order (check_stops_on_price_update c8_state "E" 95
        (Except.ok ())).1.active_orders "n" = some c8_null_stop :=
  ⟨rfl, rfl, rfl, rfl⟩

end ExchangeManager
